import Mathlib

/-
Verification of the EmoGo backend service (src/main.py).

The service exposes three read-only endpoints over one MongoDB collection:
a health check, `/data-download` (HTML listing of the 10 most recent
records) and `/download-csv` (full CSV export).  This file gives a shallow
embedding of the data model and of the two request handlers, and proves the
testable properties of the specification against it.

Modelling conventions:
* A raw MongoDB document is a record of optional typed fields plus a list
  of unknown extra fields (`RawDoc`).  `_id` is always present (a MongoDB
  invariant).
* Python floats are modelled by `PyFloat`, an exact decimal
  (mantissa / 10 ^ exp).  CPython prints a float as its shortest decimal
  representation; the renderings below agree with CPython on every value
  whose decimal form is exact at the rendered precision, which covers all
  values appearing in this development.
* `datetime.strptime(s, '%Y-%m-%d%H:%M:%S')` is modelled faithfully after
  CPython's `_strptime` implementation: each directive compiles to an
  ordered list of regex alternatives ('%Y' = four digits, '%m' =
  "1[0-2]|0[1-9]|[1-9]", '%d' = "3[01]|[12]\d|0[1-9]|[1-9]", '%H' =
  "2[0-3]|[0-1]\d|\d", '%M' = "[0-5]\d|\d", '%S' = "6[0-1]|[0-5]\d|\d"),
  matched with backtracking over the whole input, followed by the
  `datetime()` constructor checks (year in 1..9999, day within the month,
  second at most 59).
* The pooled database handle is `Option Conn`: `none` models the global
  `db` still being `None`.  A `Conn` carries the collection contents and an
  optional failure point: `fetchError = some k` models the driver cursor
  raising after yielding the first `k` documents of the query result.
* MongoDB sorts string fields by their UTF-8 bytes, which coincides with
  code-point order; `charListLe` implements that order directly.
* The fixed HTML page shell (`get_html_template`, page header, download
  button, footer) is presentation and is elided; a page is modelled by its
  HTTP status together with the data content handed to the shell.
-/

namespace EmoGo

/-- Digit character: `dC k` is the ASCII digit for `k` (0 ≤ k ≤ 9). -/
def dC (k : Nat) : Char := Char.ofNat (48 + k)

/-- Value of an ASCII digit character, `none` on a non-digit. -/
def digitVal (c : Char) : Option Nat :=
  if 48 ≤ c.toNat ∧ c.toNat ≤ 57 then some (c.toNat - 48) else none

/-- Fixed-width decimal rendering of `n` with `w` digits (leading zeros). -/
def natDigitsAux : Nat → Nat → List Char
  | 0, _ => []
  | w + 1, n => natDigitsAux w (n / 10) ++ [dC (n % 10)]

/-- Zero-padded fixed-width decimal string, as produced by `strftime`
percent-directives and by `'%0*d' % n`-style formatting. -/
def padZeros (w : Nat) (n : Nat) : String := ⟨natDigitsAux w n⟩

/-- Model of a CPython float: the exact decimal `mant / 10 ^ exp`. -/
structure PyFloat where
  mant : Int
  exp : Nat
deriving DecidableEq

/-- Python `str()` of a float: shortest decimal representation; an
integral value keeps one fractional digit (`str(7.0) = "7.0"`). -/
def PyFloat.str (x : PyFloat) : String :=
  let sign := if x.mant < 0 then "-" else ""
  let a := x.mant.natAbs
  if x.exp = 0 then sign ++ toString a ++ ".0"
  else sign ++ toString (a / 10 ^ x.exp) ++ "." ++ padZeros x.exp (a % 10 ^ x.exp)

/-- Nearest integer to `num / den` with ties to even (`den > 0`), the
rounding used by Python's fixed-point float formatting. -/
def divNearestEven (num : Int) (den : Int) : Int :=
  let q := num.fdiv den
  let r := num.fmod den
  if 2 * r < den then q
  else if den < 2 * r then q + 1
  else if q % 2 = 0 then q else q + 1

/-- Python `f"{x:.6f}"`: the value rendered with exactly six fractional
digits. -/
def format6f (x : PyFloat) : String :=
  let scaled := divNearestEven (x.mant * 10 ^ 6) (10 ^ x.exp)
  let sign := if scaled < 0 then "-" else ""
  let a := scaled.natAbs
  sign ++ toString (a / 10 ^ 6) ++ "." ++ padZeros 6 (a % 10 ^ 6)

/-- The sentiment lexicon of src/main.py lines 26-32: integer code to
(display label, Tailwind colour class). -/
def SENTIMENT_MAPPING (code : Int) : Option (String × String) :=
  if code = 1 then some ("Bad", "text-red-600")
  else if code = 2 then some ("Poor", "text-orange-600")
  else if code = 3 then some ("Average", "text-yellow-600")
  else if code = 4 then some ("Good", "text-green-300")
  else if code = 5 then some ("Happy", "text-green-600")
  else none

/-- Sentiment lookup of the CSV path (src/main.py line 107):
`SENTIMENT_MAPPING.get(code, ("Unknown", ""))`. -/
def sentimentCsv (code : Int) : String × String :=
  (SENTIMENT_MAPPING code).getD ("Unknown", "")

/-- Sentiment lookup of the HTML path (src/main.py line 193):
`SENTIMENT_MAPPING.get(code, ("未知/Unknown", "text-gray-400"))`. -/
def sentimentHtml (code : Int) : String × String :=
  (SENTIMENT_MAPPING code).getD ("未知/Unknown", "text-gray-400")

/-- A parsed calendar timestamp, the result of a successful
`datetime.strptime`. -/
structure PyDateTime where
  year : Nat
  month : Nat
  day : Nat
  hour : Nat
  minute : Nat
  second : Nat
deriving DecidableEq

/-- Literal character token of the compiled strptime pattern. -/
def lit (c : Char) : List Char → Option (List Char)
  | x :: r => if x = c then some r else none
  | [] => none

/-- The '%Y' directive: exactly four digits. -/
def matchY : List Char → List (Nat × List Char)
  | c1 :: c2 :: c3 :: c4 :: r =>
    match digitVal c1, digitVal c2, digitVal c3, digitVal c4 with
    | some a, some b, some c, some d => [(1000 * a + 100 * b + 10 * c + d, r)]
    | _, _, _, _ => []
  | _ => []

/-- The '%m' directive, regex alternatives "1[0-2]|0[1-9]|[1-9]" in
pattern order. -/
def mAlts (s : List Char) : List (Nat × List Char) :=
  (match s with
   | c1 :: c2 :: r =>
     match digitVal c1, digitVal c2 with
     | some a, some b => if a = 1 ∧ b ≤ 2 then [(10 * a + b, r)] else []
     | _, _ => []
   | _ => []) ++
  (match s with
   | c1 :: c2 :: r =>
     match digitVal c1, digitVal c2 with
     | some a, some b => if a = 0 ∧ 1 ≤ b then [(b, r)] else []
     | _, _ => []
   | _ => []) ++
  (match s with
   | c1 :: r =>
     match digitVal c1 with
     | some a => if 1 ≤ a then [(a, r)] else []
     | none => []
   | _ => [])

/-- The '%d' directive, regex alternatives
"3[0-1]|[1-2]\d|0[1-9]|[1-9]| [1-9]" (the last one is a blank-padded
single digit). -/
def dAlts (s : List Char) : List (Nat × List Char) :=
  (match s with
   | c1 :: c2 :: r =>
     match digitVal c1, digitVal c2 with
     | some a, some b => if a = 3 ∧ b ≤ 1 then [(10 * a + b, r)] else []
     | _, _ => []
   | _ => []) ++
  (match s with
   | c1 :: c2 :: r =>
     match digitVal c1, digitVal c2 with
     | some a, some b => if 1 ≤ a ∧ a ≤ 2 then [(10 * a + b, r)] else []
     | _, _ => []
   | _ => []) ++
  (match s with
   | c1 :: c2 :: r =>
     match digitVal c1, digitVal c2 with
     | some a, some b => if a = 0 ∧ 1 ≤ b then [(b, r)] else []
     | _, _ => []
   | _ => []) ++
  (match s with
   | c1 :: r =>
     match digitVal c1 with
     | some a => if 1 ≤ a then [(a, r)] else []
     | none => []
   | _ => []) ++
  (match s with
   | c1 :: c2 :: r =>
     if c1 = ' ' then
       match digitVal c2 with
       | some b => if 1 ≤ b then [(b, r)] else []
       | none => []
     else []
   | _ => [])

/-- The '%H' directive, regex alternatives "2[0-3]|[0-1]\d|\d". -/
def hAlts (s : List Char) : List (Nat × List Char) :=
  (match s with
   | c1 :: c2 :: r =>
     match digitVal c1, digitVal c2 with
     | some a, some b => if a = 2 ∧ b ≤ 3 then [(10 * a + b, r)] else []
     | _, _ => []
   | _ => []) ++
  (match s with
   | c1 :: c2 :: r =>
     match digitVal c1, digitVal c2 with
     | some a, some b => if a ≤ 1 then [(10 * a + b, r)] else []
     | _, _ => []
   | _ => []) ++
  (match s with
   | c1 :: r =>
     match digitVal c1 with
     | some a => [(a, r)]
     | none => []
   | _ => [])

/-- The '%M' directive, regex alternatives "[0-5]\d|\d". -/
def minAlts (s : List Char) : List (Nat × List Char) :=
  (match s with
   | c1 :: c2 :: r =>
     match digitVal c1, digitVal c2 with
     | some a, some b => if a ≤ 5 then [(10 * a + b, r)] else []
     | _, _ => []
   | _ => []) ++
  (match s with
   | c1 :: r =>
     match digitVal c1 with
     | some a => [(a, r)]
     | none => []
   | _ => [])

/-- The '%S' directive, regex alternatives "6[0-1]|[0-5]\d|\d". -/
def sAlts (s : List Char) : List (Nat × List Char) :=
  (match s with
   | c1 :: c2 :: r =>
     match digitVal c1, digitVal c2 with
     | some a, some b => if a = 6 ∧ b ≤ 1 then [(10 * a + b, r)] else []
     | _, _ => []
   | _ => []) ++
  (match s with
   | c1 :: c2 :: r =>
     match digitVal c1, digitVal c2 with
     | some a, some b => if a ≤ 5 then [(10 * a + b, r)] else []
     | _, _ => []
   | _ => []) ++
  (match s with
   | c1 :: r =>
     match digitVal c1 with
     | some a => [(a, r)]
     | none => []
   | _ => [])

/-- First alternative (in pattern order) whose continuation succeeds:
this is exactly regex backtracking for a pattern without quantifiers. -/
def firstSome : List α → (α → Option β) → Option β
  | [], _ => none
  | a :: as, f =>
    match f a with
    | some b => some b
    | none => firstSome as f

/-- Full-input backtracking match of the compiled pattern of
`'%Y-%m-%d%H:%M:%S'`, returning the captured (year, month, day, hour,
minute, second). -/
def strptimeChars (cs : List Char) : Option (Nat × Nat × Nat × Nat × Nat × Nat) :=
  firstSome (matchY cs) fun yr =>
  (lit '-' yr.2).bind fun r2 =>
  firstSome (mAlts r2) fun mr =>
  (lit '-' mr.2).bind fun r4 =>
  firstSome (dAlts r4) fun dr =>
  firstSome (hAlts dr.2) fun hr =>
  (lit ':' hr.2).bind fun r7 =>
  firstSome (minAlts r7) fun mir =>
  (lit ':' mir.2).bind fun r9 =>
  firstSome (sAlts r9) fun sr =>
  if sr.2 = [] then some (yr.1, mr.1, dr.1, hr.1, mir.1, sr.1) else none

/-- Gregorian leap-year test, as in Python's calendar arithmetic. -/
def isLeapYear (y : Nat) : Bool := y % 4 = 0 && (y % 100 != 0 || y % 400 = 0)

/-- Number of days in a month, as enforced by the `datetime` constructor. -/
def daysInMonth (y m : Nat) : Nat :=
  if m = 2 then (if isLeapYear y then 29 else 28)
  else if m = 4 ∨ m = 6 ∨ m = 9 ∨ m = 11 then 30
  else 31

/-- The checks of the `datetime()` constructor: year in 1..9999, month in
1..12, day within the month, hour below 24, minute and second below 60
(the regex admits seconds 60 and 61, which the constructor rejects). -/
def datetimeOk (y m d h mi s : Nat) : Bool :=
  decide (1 ≤ y) && decide (y ≤ 9999) && decide (1 ≤ m) && decide (m ≤ 12) &&
  decide (1 ≤ d) && decide (d ≤ daysInMonth y m) &&
  decide (h ≤ 23) && decide (mi ≤ 59) && decide (s ≤ 59)

/-- Model of `datetime.strptime(s, '%Y-%m-%d%H:%M:%S')` as used at
src/main.py lines 113 and 200: regex match plus constructor validation;
`none` models a raised `ValueError`. -/
def strptime_Ymd_HMS (s : String) : Option PyDateTime :=
  match strptimeChars s.data with
  | some (y, m, d, h, mi, sec) =>
    if datetimeOk y m d h mi sec then some ⟨y, m, d, h, mi, sec⟩ else none
  | none => none

/-- Model of `dt.strftime('%Y/%m/%d %H:%M:%S')` (src/main.py lines 114
and 201). -/
def strftimeSlash (dt : PyDateTime) : String :=
  padZeros 4 dt.year ++ "/" ++ padZeros 2 dt.month ++ "/" ++ padZeros 2 dt.day ++ " " ++
  padZeros 2 dt.hour ++ ":" ++ padZeros 2 dt.minute ++ ":" ++ padZeros 2 dt.second

/-- Timestamp formatting of the CSV path (src/main.py lines 110-116):
on parse failure the original string is used unchanged. -/
def formatTimestampCsv (s : String) : String :=
  match strptime_Ymd_HMS s with
  | some dt => strftimeSlash dt
  | none => s

/-- Timestamp formatting of the HTML path (src/main.py lines 197-203):
on parse failure the original string is shown with the marker
" (格式錯誤)" appended. -/
def formatTimestampHtml (s : String) : String :=
  match strptime_Ymd_HMS s with
  | some dt => strftimeSlash dt
  | none => s ++ " (格式錯誤)"

/-- The zero-padded 18-character timestamp string
`YYYY-MM-DDHH:MM:SS` (10 date characters, no separator, 8 time
characters) for the given calendar components. -/
def render18chars (y m d h mi s : Nat) : List Char :=
  [dC (y / 1000 % 10), dC (y / 100 % 10), dC (y / 10 % 10), dC (y % 10), '-',
   dC (m / 10 % 10), dC (m % 10), '-',
   dC (d / 10 % 10), dC (d % 10),
   dC (h / 10 % 10), dC (h % 10), ':',
   dC (mi / 10 % 10), dC (mi % 10), ':',
   dC (s / 10 % 10), dC (s % 10)]

/-- String form of `render18chars`. -/
def render18 (y m d h mi s : Nat) : String := ⟨render18chars y m d h mi s⟩

/-- A raw document as fetched from the `datacsv` collection: every
declared field may be absent except `_id` (a MongoDB invariant), and the
document may carry arbitrary unknown extra fields.  Field values keep
their stored types (pydantic's numeric-string coercion is not exercised
by any claim and is not modelled). -/
structure RawDoc where
  mongoId : String
  user_id : Option Int
  timestamp : Option String
  sentiment : Option Int
  vlog_path : Option String
  lat : Option PyFloat
  lng : Option PyFloat
  extra : List (String × String)
deriving DecidableEq

/-- The pydantic model of src/main.py lines 61-73: `id` is optional (the
handler fills it from `_id`); `user_id`, `timestamp`, `sentiment`,
`vlog_path`, `lat` and `lng` are required.  `Config.extra = 'ignore'`
silently drops unknown fields. -/
structure MongoDBItem where
  id : Option String
  user_id : Int
  timestamp : String
  sentiment : Int
  vlog_path : String
  lat : PyFloat
  lng : PyFloat
deriving DecidableEq

/-- Model of `MongoDBItem(**doc)` after `doc['id'] = str(doc.pop('_id'))`
(src/main.py lines 163-166): validation fails (`none`, a raised
`ValidationError`) when any required field is absent; extra fields are
ignored. -/
def MongoDBItem.validate (doc : RawDoc) : Option MongoDBItem :=
  match doc.user_id, doc.timestamp, doc.sentiment, doc.vlog_path, doc.lat, doc.lng with
  | some u, some t, some sc, some v, some la, some ln =>
    some ⟨some doc.mongoId, u, t, sc, v, la, ln⟩
  | _, _, _, _, _, _ => none

/-- Lexicographic order on character lists by code point, which is the
order MongoDB uses on string fields (UTF-8 byte order coincides with
code-point order). -/
def charListLe : List Char → List Char → Bool
  | [], _ => true
  | _ :: _, [] => false
  | a :: as, b :: bs =>
    if a.toNat < b.toNat then true
    else if b.toNat < a.toNat then false
    else charListLe as bs

/-- Lexicographic string order by code point. -/
def strLe (a b : String) : Bool := charListLe a.data b.data

/-- Sort key of `.sort("timestamp", -1)`: the raw timestamp string (a
document without the field sorts like the empty string, i.e. last in
descending order, matching BSON's missing-before-string rule). -/
def tsKey (doc : RawDoc) : String := doc.timestamp.getD ""

/-- Descending comparison on documents: `a` precedes `b` when `a`'s raw
timestamp string is lexicographically at least `b`'s. -/
def tsGe (a b : RawDoc) : Prop := strLe (tsKey b) (tsKey a) = true

instance : DecidableRel tsGe := fun a b => instDecidableEqBool (strLe (tsKey b) (tsKey a)) true

/-- Model of `find().sort("timestamp", -1)`: the collection contents in
descending lexicographic order of the raw timestamp string. -/
def sortDescTs (docs : List RawDoc) : List RawDoc := docs.insertionSort tsGe

/-- A live connection: the collection contents plus an optional failure
point.  `fetchError = some k` models the driver cursor raising after
yielding the first `k` documents of the query result. -/
structure Conn where
  docs : List RawDoc
  fetchError : Option Nat
deriving DecidableEq

/-- One CSV field under `csv.writer`'s QUOTE_MINIMAL dialect: quoted
(with doubled quote characters) exactly when it contains the delimiter,
the quote character or a line-terminator character. -/
def csvField (s : String) : String :=
  if s.data.any (fun c => c = ',' || c = '"' || c = '\r' || c = '\n') then
    "\"" ++ String.join (s.data.map (fun c => if c = '"' then "\"\"" else String.singleton c)) ++ "\""
  else s

/-- Comma-separated concatenation of already-rendered fields. -/
def commaJoin : List String → String
  | [] => ""
  | [f] => f
  | f :: fs => f ++ "," ++ commaJoin fs

/-- One CSV record as written by `writer.writerow`: comma-separated
fields with the default "\r\n" line terminator. -/
def csvLine (fields : List String) : String :=
  commaJoin (fields.map csvField) ++ "\r\n"

/-- The fixed CSV header (src/main.py lines 92-95). -/
def csvHeaders : List String :=
  ["Record_ID", "User_ID", "Timestamp", "Sentiment_Code",
   "Sentiment_Text", "Latitude", "Longitude", "Vlog_Path"]

/-- The header row of the export. -/
def csvHeaderLine : String := csvLine csvHeaders

/-- The eight stringified fields of one CSV data row (src/main.py lines
119-128): raw-field `doc.get` defaults, no pydantic validation.
`str()` is applied by `csv.writer` to the non-string values. -/
def csvRow (doc : RawDoc) : List String :=
  [doc.mongoId,
   (match doc.user_id with
    | some u => toString u
    | none => "N/A"),
   formatTimestampCsv (doc.timestamp.getD ""),
   toString (doc.sentiment.getD 0),
   (sentimentCsv (doc.sentiment.getD 0)).1,
   (match doc.lat with
    | some x => x.str
    | none => "N/A"),
   (match doc.lng with
    | some x => x.str
    | none => "N/A"),
   doc.vlog_path.getD "N/A"]

/-- Outcome of the `/download-csv` handler: an `HTTPException` with a
status code, or a `StreamingResponse` whose body is the given list of
chunks. -/
inductive CsvResult where
  | httpError (status : Nat) (detail : String)
  | file (chunks : List String)
deriving DecidableEq

/-- Model of the `/download-csv` handler (src/main.py lines 83-144).
The whole export is accumulated in an in-memory `io.StringIO` buffer;
on success the response body is `iter([output.getvalue()])`, a single
chunk.  A cursor failure is caught and turned into a 500 before anything
is sent, discarding the buffer. -/
def download_csv (db : Option Conn) : CsvResult :=
  match db with
  | none => CsvResult.httpError 503 "Database connection failed."
  | some conn =>
    match conn.fetchError with
    | some _ => CsvResult.httpError 500 "Error generating CSV file."
    | none =>
      CsvResult.file
        [String.join (csvHeaderLine :: (sortDescTs conn.docs).map (fun d => csvLine (csvRow d)))]

/-- Sequential validation of the fetched documents (src/main.py lines
160-166): the first document that fails pydantic validation raises,
aborting the whole listing. -/
def collectItems : List RawDoc → Except String (List MongoDBItem)
  | [] => Except.ok []
  | d :: ds =>
    match MongoDBItem.validate d with
    | some it =>
      match collectItems ds with
      | Except.ok items => Except.ok (it :: items)
      | Except.error e => Except.error e
    | none => Except.error "validation error"

/-- The fetch stage of `/data-download` (src/main.py lines 157-177):
sorted query limited to 10 documents, sequential validation, and any
cursor or validation failure surfaces as the caught exception. -/
def fetchPage (conn : Conn) : Except String (List MongoDBItem) :=
  let stream := (sortDescTs conn.docs).take 10
  let yielded :=
    match conn.fetchError with
    | some k => stream.take k
    | none => stream
  match collectItems yielded with
  | Except.error e => Except.error e
  | Except.ok items =>
    match conn.fetchError with
    | some _ => Except.error "cursor error"
    | none => Except.ok items

/-- The `user_display` value of one HTML row (src/main.py line 206). -/
def userDisplay (item : MongoDBItem) : String := toString item.user_id

/-- The video link of one HTML row (src/main.py lines 185-190).  The
source builds it from an f-string segment followed by three plain
(non-f) string literals, which Python concatenates at parse time, so
only `item.vlog_path` is interpolated and the text between the braces of
the download attribute stays literal. -/
def mock_video_link (item : MongoDBItem) : String :=
  "<a href='" ++ item.vlog_path ++
    "' download='vlog_\x7bitem.id\x7d.mp4' class='text-blue-500 hover:text-blue-700 font-medium' target='_blank'> 檢視/下載 (See/Download)</a>"

/-- The sentiment cell of one HTML row (src/main.py lines 192-195 and
215): label styled with the colour hint, followed by the numeric code. -/
def sentimentCellHtml (item : MongoDBItem) : String :=
  "<span class=\"font-semibold " ++ (sentimentHtml item.sentiment).2 ++ "\">" ++
    (sentimentHtml item.sentiment).1 ++ "</span> (" ++ toString item.sentiment ++ ")"

/-- The coordinates cell of one HTML row (src/main.py line 218): both
coordinates formatted to six decimal places. -/
def coordsCellHtml (item : MongoDBItem) : String :=
  format6f item.lat ++ ", " ++ format6f item.lng

/-- One `<tr>` of the listing (src/main.py lines 210-224), with the
insignificant indentation whitespace of the source template condensed. -/
def renderRowHtml (item : MongoDBItem) : String :=
  "<tr class=\"border-b hover:bg-gray-50\"><td class=\"px-4 py-3 text-sm font-medium text-gray-900\">" ++
    userDisplay item ++
  "</td><td class=\"px-4 py-3 text-sm text-gray-500\">" ++
    formatTimestampHtml item.timestamp ++
  "</td><td class=\"px-4 py-3 text-sm text-gray-900\">" ++
    sentimentCellHtml item ++
  "</td><td class=\"px-4 py-3 text-sm text-gray-500\">" ++
    coordsCellHtml item ++
  "</td><td class=\"px-4 py-3 text-sm font-mono text-gray-700\">" ++
    mock_video_link item ++
  "</td></tr>"

/-- The placeholder row shown when no data was found (src/main.py lines
226-234), condensed. -/
def noDataRowHtml : String :=
  "<tr><td colspan=\"5\" class=\"px-4 py-12 text-center text-gray-500 text-lg\">在 'datacsv' Collection 中未找到資料。</td></tr>"

/-- The accumulated `data_rows_html` (src/main.py lines 182-234). -/
def data_rows_html (items : List MongoDBItem) : String :=
  if items.isEmpty then noDataRowHtml
  else String.join (items.map renderRowHtml)

/-- The direct 503 response body of `/data-download` (src/main.py line
153). -/
def dbFailHtml : String :=
  "<h1>錯誤: 資料庫連線失敗。請檢查 MONGODB_URI 環境變數。</h1>"

/-- The 500 error body of `/data-download` (src/main.py lines 170-177),
condensed, with the caught exception text interpolated. -/
def errorDivHtml (e : String) : String :=
  "<div class=\"p-6 bg-red-100 border-l-4 border-red-500 text-red-700\"><p class=\"font-bold\">資料庫錯誤 (Database Error)</p><p>無法載入資料。請檢查 MongoDB 連線狀態和 Collection 名稱是否正確。</p><p class=\"text-xs mt-2\">詳細錯誤: " ++
    e ++ "</p></div>"

/-- Model of the `/data-download` handler (src/main.py lines 147-289):
HTTP status paired with the data content handed to the fixed page shell
(the shell itself is presentation and is elided). -/
def data_download_page (db : Option Conn) : Nat × String :=
  match db with
  | none => (503, dbFailHtml)
  | some conn =>
    match fetchPage conn with
    | Except.error e => (500, errorDivHtml e)
    | Except.ok items => (200, data_rows_html items)

/-- The scenario document of the specification's acceptance test. -/
def doc8 : RawDoc :=
  ⟨"a1", some 7, some "2025-11-2707:35:33", some 4, some "https://x/y.mp4",
   some ⟨2503, 2⟩, some ⟨12156, 2⟩, []⟩

/-- The normalized record of the scenario document. -/
def item8 : MongoDBItem :=
  ⟨some "a1", 7, "2025-11-2707:35:33", 4, "https://x/y.mp4", ⟨2503, 2⟩, ⟨12156, 2⟩⟩

/-- A document with every declared field except `user_id`. -/
def docNoUser : RawDoc :=
  ⟨"b2", none, some "2025-11-2707:35:33", some 4, some "https://x/y.mp4",
   some ⟨2503, 2⟩, some ⟨12156, 2⟩, []⟩

/- ------------------------------------------------------------------ -/
/- Auxiliary lemmas                                                    -/
/- ------------------------------------------------------------------ -/

theorem dC_toNat (k : Nat) (h : k ≤ 9) : (dC k).toNat = 48 + k := by
  have hv : (48 + k).isValidChar := by left; omega
  simp [dC, Char.ofNat, hv]
  rfl

theorem digitVal_dC (k : Nat) (h : k ≤ 9) : digitVal (dC k) = some k := by
  unfold digitVal
  rw [dC_toNat k h, if_pos ⟨by omega, by omega⟩]
  congr 1
  omega

theorem matchY_padded (y : Nat) (hy : y ≤ 9999) (r : List Char) :
    matchY (dC (y / 1000 % 10) :: dC (y / 100 % 10) :: dC (y / 10 % 10) :: dC (y % 10) :: r) =
      [(y, r)] := by
  have e : 1000 * (y / 1000 % 10) + 100 * (y / 100 % 10) + 10 * (y / 10 % 10) + y % 10 = y := by
    omega
  simp only [matchY, digitVal_dC _ (by omega : y / 1000 % 10 ≤ 9),
    digitVal_dC _ (by omega : y / 100 % 10 ≤ 9), digitVal_dC _ (by omega : y / 10 % 10 ≤ 9),
    digitVal_dC _ (by omega : y % 10 ≤ 9), e]

/-- On a zero-padded two-digit month the first matching '%m' alternative
captures the month itself. -/
theorem mAlts_padded (m : Nat) (h1 : 1 ≤ m) (h2 : m ≤ 12) (r : List Char) :
    ∃ t, mAlts (dC (m / 10 % 10) :: dC (m % 10) :: r) = (m, r) :: t := by
  interval_cases m <;> exact ⟨_, rfl⟩

/-- On a zero-padded two-digit day the first matching '%d' alternative
captures the day itself. -/
theorem dAlts_padded (d : Nat) (h1 : 1 ≤ d) (h2 : d ≤ 31) (r : List Char) :
    ∃ t, dAlts (dC (d / 10 % 10) :: dC (d % 10) :: r) = (d, r) :: t := by
  interval_cases d <;> exact ⟨_, rfl⟩

/-- On a zero-padded two-digit hour the first matching '%H' alternative
captures the hour itself. -/
theorem hAlts_padded (h : Nat) (h2 : h ≤ 23) (r : List Char) :
    ∃ t, hAlts (dC (h / 10 % 10) :: dC (h % 10) :: r) = (h, r) :: t := by
  interval_cases h <;> exact ⟨_, rfl⟩

/-- On a zero-padded two-digit minute the first matching '%M' alternative
captures the minute itself. -/
theorem minAlts_padded (mi : Nat) (h2 : mi ≤ 59) (r : List Char) :
    ∃ t, minAlts (dC (mi / 10 % 10) :: dC (mi % 10) :: r) = (mi, r) :: t := by
  interval_cases mi <;> exact ⟨_, rfl⟩

/-- On a zero-padded two-digit second the first matching '%S' alternative
captures the second itself. -/
theorem sAlts_padded (s : Nat) (h2 : s ≤ 59) (r : List Char) :
    ∃ t, sAlts (dC (s / 10 % 10) :: dC (s % 10) :: r) = (s, r) :: t := by
  interval_cases s <;> exact ⟨_, rfl⟩

theorem firstSome_cons_some {α β : Type} (a : α) (t : List α) (f : α → Option β) (b : β)
    (h : f a = some b) : firstSome (a :: t) f = some b := by
  simp [firstSome, h]

theorem firstSome_singleton {α β : Type} (a : α) (f : α → Option β) :
    firstSome [a] f = f a := by
  cases h : f a <;> simp [firstSome, h]

/-- The backtracking match of the zero-padded 18-character rendering
succeeds with exactly the rendered components. -/
theorem strptimeChars_render18 (y m d h mi s : Nat)
    (hy : y ≤ 9999) (hm1 : 1 ≤ m) (hm2 : m ≤ 12) (hd1 : 1 ≤ d) (hd2 : d ≤ 31)
    (hh : h ≤ 23) (hmi : mi ≤ 59) (hs : s ≤ 59) :
    strptimeChars (render18chars y m d h mi s) = some (y, m, d, h, mi, s) := by
  obtain ⟨tm, hmA⟩ := mAlts_padded m hm1 hm2 _
  obtain ⟨td, hdA⟩ := dAlts_padded d hd1 hd2 _
  obtain ⟨th, hhA⟩ := hAlts_padded h hh _
  obtain ⟨tmi, hmiA⟩ := minAlts_padded mi hmi _
  obtain ⟨ts, hsA⟩ := sAlts_padded s hs _
  unfold strptimeChars render18chars
  rw [matchY_padded y hy, firstSome_singleton]
  simp only [lit, Option.some_bind, reduceIte]
  rw [hmA]
  apply firstSome_cons_some
  simp only [lit, Option.some_bind, reduceIte]
  rw [hdA]
  apply firstSome_cons_some
  rw [hhA]
  apply firstSome_cons_some
  simp only [lit, Option.some_bind, reduceIte]
  rw [hmiA]
  apply firstSome_cons_some
  simp only [lit, Option.some_bind, reduceIte]
  rw [hsA]
  apply firstSome_cons_some
  rfl

theorem daysInMonth_le (y m : Nat) : daysInMonth y m ≤ 31 := by
  unfold daysInMonth
  split_ifs <;> omega

/-- `strptime` succeeds on every calendar-valid zero-padded timestamp
string and returns its components. -/
theorem strptime_render18 (y m d h mi s : Nat)
    (hy1 : 1 ≤ y) (hy : y ≤ 9999) (hm1 : 1 ≤ m) (hm2 : m ≤ 12)
    (hd1 : 1 ≤ d) (hd2 : d ≤ daysInMonth y m)
    (hh : h ≤ 23) (hmi : mi ≤ 59) (hs : s ≤ 59) :
    strptime_Ymd_HMS (render18 y m d h mi s) = some ⟨y, m, d, h, mi, s⟩ := by
  have hd31 : d ≤ 31 := le_trans hd2 (daysInMonth_le y m)
  have hOk : datetimeOk y m d h mi s = true := by
    simp only [datetimeOk, Bool.and_eq_true, decide_eq_true_eq]
    exact ⟨⟨⟨⟨⟨⟨⟨⟨hy1, hy⟩, hm1⟩, hm2⟩, hd1⟩, hd2⟩, hh⟩, hmi⟩, hs⟩
  unfold strptime_Ymd_HMS render18
  rw [show (⟨render18chars y m d h mi s⟩ : String).data = render18chars y m d h mi s from rfl]
  rw [strptimeChars_render18 y m d h mi s hy hm1 hm2 hd1 hd31 hh hmi hs]
  simp [hOk]

theorem charListLe_cons (x y : Char) (xs ys : List Char) :
    charListLe (x :: xs) (y :: ys) =
      if x.toNat < y.toNat then true
      else if y.toNat < x.toNat then false
      else charListLe xs ys := rfl

theorem charListLe_total (a : List Char) : ∀ b, (charListLe a b || charListLe b a) = true := by
  induction a with
  | nil => intro b; simp [charListLe]
  | cons x xs ih =>
    intro b
    cases b with
    | nil => simp [charListLe]
    | cons y ys =>
      rw [charListLe_cons, charListLe_cons]
      rcases Nat.lt_trichotomy x.toNat y.toNat with hlt | heq | hgt
      · rw [if_pos hlt]
        simp
      · have h1 : ¬ x.toNat < y.toNat := by omega
        have h2 : ¬ y.toNat < x.toNat := by omega
        rw [if_neg h1, if_neg h2, if_neg h2, if_neg h1]
        exact ih ys
      · have h1 : ¬ x.toNat < y.toNat := by omega
        rw [if_neg h1, if_pos hgt, if_pos hgt]
        simp

theorem charListLe_trans : ∀ a b c : List Char,
    charListLe a b = true → charListLe b c = true → charListLe a c = true := by
  intro a
  induction a with
  | nil => intro b c _ _; rfl
  | cons x xs ih =>
    intro b c h1 h2
    cases b with
    | nil => simp [charListLe] at h1
    | cons y ys =>
      cases c with
      | nil => simp [charListLe] at h2
      | cons z zs =>
        rw [charListLe_cons] at h1 h2 ⊢
        rcases Nat.lt_trichotomy x.toNat y.toNat with hxy | hxy | hxy
        · rcases Nat.lt_trichotomy y.toNat z.toNat with hyz | hyz | hyz
          · rw [if_pos (by omega)]
          · rw [if_pos (by omega)]
          · rw [if_neg (by omega), if_pos hyz] at h2
            cases h2
        · rcases Nat.lt_trichotomy y.toNat z.toNat with hyz | hyz | hyz
          · rw [if_pos (by omega)]
          · rw [if_neg (by omega), if_neg (by omega)]
            rw [if_neg (by omega), if_neg (by omega)] at h1 h2
            exact ih ys zs h1 h2
          · rw [if_neg (by omega), if_pos (by omega)] at h2
            cases h2
        · rw [if_neg (by omega), if_pos hxy] at h1
          cases h1

theorem strLe_total (a b : String) : strLe a b = true ∨ strLe b a = true := by
  have h := charListLe_total a.data b.data
  rcases Bool.or_eq_true_iff.mp h with h1 | h1
  · exact Or.inl h1
  · exact Or.inr h1

instance : IsTotal RawDoc tsGe :=
  ⟨fun a b => strLe_total (tsKey b) (tsKey a)⟩

instance : IsTrans RawDoc tsGe :=
  ⟨fun _ _ _ hab hbc => charListLe_trans _ _ _ hbc hab⟩

/-- Sequential validation succeeds on an all-valid document list and
returns the corresponding records in order. -/
theorem collectItems_ok (l : List RawDoc)
    (hv : ∀ d ∈ l, (MongoDBItem.validate d).isSome) :
    ∃ items, collectItems l = Except.ok items ∧
      List.Forall₂ (fun d it => MongoDBItem.validate d = some it) l items := by
  induction l with
  | nil => exact ⟨[], rfl, List.Forall₂.nil⟩
  | cons d ds ih =>
    obtain ⟨items, hc, hf⟩ := ih (fun e he => hv e (List.mem_cons_of_mem _ he))
    obtain ⟨it, hit⟩ := Option.isSome_iff_exists.mp (hv d (List.mem_cons_self _ _))
    refine ⟨it :: items, ?_, List.Forall₂.cons hit hf⟩
    unfold collectItems
    rw [hit, hc]

/-- One invalid document anywhere in the yielded sequence makes
sequential validation raise. -/
theorem collectItems_error (l : List RawDoc)
    (hb : ∃ d ∈ l, MongoDBItem.validate d = none) :
    ∃ e, collectItems l = Except.error e := by
  induction l with
  | nil =>
    rcases hb with ⟨d, hd, _⟩
    cases hd
  | cons d ds ih =>
    rcases hb with ⟨d0, hd0, hnone⟩
    rcases List.mem_cons.mp hd0 with rfl | hmem
    · refine ⟨"validation error", ?_⟩
      unfold collectItems
      rw [hnone]
    · cases hv : MongoDBItem.validate d with
      | none =>
        refine ⟨"validation error", ?_⟩
        unfold collectItems
        rw [hv]
      | some it =>
        obtain ⟨e, he⟩ := ih ⟨d0, hmem, hnone⟩
        refine ⟨e, ?_⟩
        unfold collectItems
        rw [hv, he]

/- ------------------------------------------------------------------ -/
/- Claim theorems                                                      -/
/- ------------------------------------------------------------------ -/

/-- Claim C1: every calendar-valid timestamp string in the zero-padded
10-character-date plus 8-character-time format `YYYY-MM-DDHH:MM:SS` is
re-rendered by both formatters as `YYYY/MM/DD HH:MM:SS` (the
slash-separated zero-padded strftime rendering) without raising; on any
string the parser rejects, the HTML path returns the original string
with the visible format-error marker appended while the CSV path
returns the unmodified original, and the two failure results always
differ. -/
theorem C1_timestamp_formatter :
    (∀ y m d h mi s : Nat,
        1 ≤ y → y ≤ 9999 → 1 ≤ m → m ≤ 12 → 1 ≤ d → d ≤ daysInMonth y m →
        h ≤ 23 → mi ≤ 59 → s ≤ 59 →
        formatTimestampHtml (render18 y m d h mi s) = strftimeSlash ⟨y, m, d, h, mi, s⟩ ∧
        formatTimestampCsv (render18 y m d h mi s) = strftimeSlash ⟨y, m, d, h, mi, s⟩) ∧
    (∀ s : String, strptime_Ymd_HMS s = none →
        formatTimestampHtml s = s ++ " (格式錯誤)" ∧
        formatTimestampCsv s = s ∧
        formatTimestampHtml s ≠ formatTimestampCsv s) := by
  constructor
  · intro y m d h mi s hy1 hy hm1 hm2 hd1 hd2 hh hmi hs
    have hp := strptime_render18 y m d h mi s hy1 hy hm1 hm2 hd1 hd2 hh hmi hs
    constructor
    · unfold formatTimestampHtml
      rw [hp]
    · unfold formatTimestampCsv
      rw [hp]
  · intro s hnone
    have h1 : formatTimestampHtml s = s ++ " (格式錯誤)" := by
      unfold formatTimestampHtml
      rw [hnone]
    have h2 : formatTimestampCsv s = s := by
      unfold formatTimestampCsv
      rw [hnone]
    refine ⟨h1, h2, ?_⟩
    rw [h1, h2]
    intro heq
    have hl := congrArg String.length heq
    rw [String.length_append] at hl
    have hm : (" (格式錯誤)" : String).length = 7 := rfl
    omega

/-- Witness for C1 at the scenario timestamp and at a shape-correct but
calendar-invalid string (February 30th), which each formatter degrades
on in its own way. -/
theorem C1_timestamp_formatter_witness :
    formatTimestampHtml "2025-11-2707:35:33" = "2025/11/27 07:35:33" ∧
    formatTimestampCsv "2025-11-2707:35:33" = "2025/11/27 07:35:33" ∧
    formatTimestampHtml "2025-02-3012:00:00" = "2025-02-3012:00:00 (格式錯誤)" ∧
    formatTimestampCsv "2025-02-3012:00:00" = "2025-02-3012:00:00" := by
  obtain ⟨hgood, hbad⟩ := C1_timestamp_formatter
  have g := hgood 2025 11 27 7 35 33 (by decide) (by decide) (by decide) (by decide)
    (by decide) (by decide) (by decide) (by decide) (by decide)
  have b := hbad "2025-02-3012:00:00" (by rfl)
  have e1 : render18 2025 11 27 7 35 33 = "2025-11-2707:35:33" := rfl
  have e2 : strftimeSlash ⟨2025, 11, 27, 7, 35, 33⟩ = "2025/11/27 07:35:33" := rfl
  rw [e1, e2] at g
  exact ⟨g.1, g.2, b.1, b.2.1⟩

/-- Claim C3 counterexample: on a document with `user_id` absent the
normalizer does not produce a record with an "anonymous" sentinel — it
fails outright (pydantic declares `user_id : int` as required), and the
HTML listing built over that single document degrades to a 500 error
page; the CSV export, which bypasses the normalizer, renders the column
as "N/A". -/
theorem C3_counterexample :
    MongoDBItem.validate docNoUser = none ∧
    (data_download_page (some ⟨[docNoUser], none⟩)).1 = 500 ∧
    csvRow docNoUser =
      ["b2", "N/A", "2025/11/27 07:35:33", "4", "Good", "25.03", "121.56", "https://x/y.mp4"] :=
  ⟨rfl, rfl, rfl⟩

/-- Claim C3 as amended: for every raw document in which the `user_id`
field is absent the record normalizer fails validation (there is no
anonymous sentinel — the pydantic model requires `user_id`), while the
CSV export renders the user-id column of such a document as the
explicit "N/A" placeholder. -/
theorem C3_missing_user_id (doc : RawDoc) (h : doc.user_id = none) :
    MongoDBItem.validate doc = none ∧
    csvRow doc =
      [doc.mongoId, "N/A", formatTimestampCsv (doc.timestamp.getD ""),
       toString (doc.sentiment.getD 0), (sentimentCsv (doc.sentiment.getD 0)).1,
       (match doc.lat with
        | some x => x.str
        | none => "N/A"),
       (match doc.lng with
        | some x => x.str
        | none => "N/A"),
       doc.vlog_path.getD "N/A"] := by
  constructor
  · unfold MongoDBItem.validate
    rw [h]
  · unfold csvRow
    rw [h]

/-- Witness for the amended C3 at a concrete document. -/
theorem C3_missing_user_id_witness :
    MongoDBItem.validate docNoUser = none ∧
    csvRow docNoUser =
      [docNoUser.mongoId, "N/A", formatTimestampCsv (docNoUser.timestamp.getD ""),
       toString (docNoUser.sentiment.getD 0), (sentimentCsv (docNoUser.sentiment.getD 0)).1,
       (match docNoUser.lat with
        | some x => x.str
        | none => "N/A"),
       (match docNoUser.lng with
        | some x => x.str
        | none => "N/A"),
       docNoUser.vlog_path.getD "N/A"] :=
  C3_missing_user_id docNoUser rfl

/-- Claim C4: for every integer sentiment code in 1..5 both rendering
paths return the (label, colour-hint) pair of the canonical lexicon
`SENTIMENT_MAPPING`; for every code outside 1..5 the lookup misses and
each path returns its designated Unknown fallback pair ("Unknown" with
an empty hint on the CSV path, "未知/Unknown" with the neutral gray
hint on the HTML path) — both total functions, never a failure. -/
theorem C4_sentiment_resolver :
    (∀ c : Int, 1 ≤ c → c ≤ 5 →
        ∃ p, SENTIMENT_MAPPING c = some p ∧ sentimentHtml c = p ∧ sentimentCsv c = p) ∧
    (∀ c : Int, c < 1 ∨ 5 < c →
        SENTIMENT_MAPPING c = none ∧
        sentimentCsv c = ("Unknown", "") ∧
        sentimentHtml c = ("未知/Unknown", "text-gray-400")) := by
  constructor
  · intro c h1 h5
    have : c = 1 ∨ c = 2 ∨ c = 3 ∨ c = 4 ∨ c = 5 := by omega
    rcases this with rfl | rfl | rfl | rfl | rfl
    · exact ⟨("Bad", "text-red-600"), rfl, rfl, rfl⟩
    · exact ⟨("Poor", "text-orange-600"), rfl, rfl, rfl⟩
    · exact ⟨("Average", "text-yellow-600"), rfl, rfl, rfl⟩
    · exact ⟨("Good", "text-green-300"), rfl, rfl, rfl⟩
    · exact ⟨("Happy", "text-green-600"), rfl, rfl, rfl⟩
  · intro c hc
    have hmiss : SENTIMENT_MAPPING c = none := by
      unfold SENTIMENT_MAPPING
      rw [if_neg (by omega), if_neg (by omega), if_neg (by omega), if_neg (by omega),
        if_neg (by omega)]
    refine ⟨hmiss, ?_, ?_⟩
    · unfold sentimentCsv
      rw [hmiss]
      rfl
    · unfold sentimentHtml
      rw [hmiss]
      rfl

/-- Witness for C4 at the in-range code 3 and the out-of-range code 9. -/
theorem C4_sentiment_resolver_witness :
    (∃ p, SENTIMENT_MAPPING 3 = some p ∧ sentimentHtml 3 = p ∧ sentimentCsv 3 = p) ∧
    SENTIMENT_MAPPING 9 = none ∧
    sentimentCsv 9 = ("Unknown", "") ∧
    sentimentHtml 9 = ("未知/Unknown", "text-gray-400") :=
  ⟨C4_sentiment_resolver.1 3 (by decide) (by decide),
   C4_sentiment_resolver.2 9 (Or.inr (by decide))⟩

/-- Claim C8: the specification's acceptance scenario.  For the document
`{_id: "a1", user_id: 7, timestamp: "2025-11-2707:35:33", sentiment: 4,
vlog_path: "https://x/y.mp4", lat: 25.03, lng: 121.56}` the HTML row
shows user "7", timestamp "2025/11/27 07:35:33", the lexicon label
"Good" for code 4 together with the numeric code, and the coordinates
to six decimal places, while the CSV data row is exactly
`a1,7,2025/11/27 07:35:33,4,Good,25.03,121.56,https://x/y.mp4`. -/
theorem C8_scenario_row :
    MongoDBItem.validate doc8 = some item8 ∧
    userDisplay item8 = "7" ∧
    formatTimestampHtml item8.timestamp = "2025/11/27 07:35:33" ∧
    sentimentCellHtml item8 = "<span class=\"font-semibold text-green-300\">Good</span> (4)" ∧
    coordsCellHtml item8 = "25.030000, 121.560000" ∧
    csvRow doc8 = ["a1", "7", "2025/11/27 07:35:33", "4", "Good", "25.03", "121.56",
      "https://x/y.mp4"] ∧
    csvLine (csvRow doc8) = "a1,7,2025/11/27 07:35:33,4,Good,25.03,121.56,https://x/y.mp4\r\n" :=
  ⟨rfl, rfl, rfl, rfl, rfl, rfl, rfl⟩

/-- Claim C9: unknown fields are silently dropped.  Two fetched
documents that agree on every declared field and differ only in their
unknown extra fields validate to the same record, render the same HTML
row, and emit the same CSV row. -/
theorem C9_extra_fields_ignored (d1 d2 : RawDoc)
    (h0 : d1.mongoId = d2.mongoId) (h1 : d1.user_id = d2.user_id)
    (h2 : d1.timestamp = d2.timestamp) (h3 : d1.sentiment = d2.sentiment)
    (h4 : d1.vlog_path = d2.vlog_path) (h5 : d1.lat = d2.lat) (h6 : d1.lng = d2.lng) :
    MongoDBItem.validate d1 = MongoDBItem.validate d2 ∧
    (MongoDBItem.validate d1).map renderRowHtml = (MongoDBItem.validate d2).map renderRowHtml ∧
    csvRow d1 = csvRow d2 := by
  cases d1
  cases d2
  simp only at h0 h1 h2 h3 h4 h5 h6
  subst h0 h1 h2 h3 h4 h5 h6
  exact ⟨rfl, rfl, rfl⟩

/-- Witness for C9: the scenario document against a copy carrying an
extra unknown field. -/
theorem C9_extra_fields_ignored_witness :
    MongoDBItem.validate doc8 =
      MongoDBItem.validate ⟨"a1", some 7, some "2025-11-2707:35:33", some 4,
        some "https://x/y.mp4", some ⟨2503, 2⟩, some ⟨12156, 2⟩, [("schema_rev", "9")]⟩ ∧
    (MongoDBItem.validate doc8).map renderRowHtml =
      (MongoDBItem.validate ⟨"a1", some 7, some "2025-11-2707:35:33", some 4,
        some "https://x/y.mp4", some ⟨2503, 2⟩, some ⟨12156, 2⟩,
        [("schema_rev", "9")]⟩).map renderRowHtml ∧
    csvRow doc8 = csvRow ⟨"a1", some 7, some "2025-11-2707:35:33", some 4,
      some "https://x/y.mp4", some ⟨2503, 2⟩, some ⟨12156, 2⟩, [("schema_rev", "9")]⟩ :=
  C9_extra_fields_ignored _ _ rfl rfl rfl rfl rfl rfl rfl

/-- Claim C10: the `download` attribute of the video anchor is the
literal, uninterpolated text `vlog_{item.id}.mp4` — the attribute comes
from a plain (non-f) string segment, so the whole link depends only on
`vlog_path` and two records with the same `vlog_path` but different ids
get identical links. -/
theorem C10_download_attribute_literal (item : MongoDBItem) :
    mock_video_link item =
      "<a href='" ++ item.vlog_path ++
        "' download='vlog_\x7bitem.id\x7d.mp4' class='text-blue-500 hover:text-blue-700 font-medium' target='_blank'> 檢視/下載 (See/Download)</a>" ∧
    ∀ item2 : MongoDBItem, item2.vlog_path = item.vlog_path →
      mock_video_link item2 = mock_video_link item := by
  refine ⟨rfl, ?_⟩
  intro item2 hp
  unfold mock_video_link
  rw [hp]

/-- Witness for C10: two records with different ids but the same video
path produce the same anchor text. -/
theorem C10_download_attribute_literal_witness :
    mock_video_link ⟨some "other-id", 9, "t", 1, "https://x/y.mp4", ⟨0, 0⟩, ⟨0, 0⟩⟩ =
      mock_video_link item8 :=
  (C10_download_attribute_literal item8).2
    ⟨some "other-id", 9, "t", 1, "https://x/y.mp4", ⟨0, 0⟩, ⟨0, 0⟩⟩ rfl

/-- A store holding eleven valid records with distinct timestamps. -/
def connEleven : Conn :=
  ⟨[⟨"r01", some 1, some "2025-01-0100:00:00", some 1, some "p", some ⟨0, 0⟩, some ⟨0, 0⟩, []⟩,
    ⟨"r02", some 2, some "2025-01-0200:00:00", some 2, some "p", some ⟨0, 0⟩, some ⟨0, 0⟩, []⟩,
    ⟨"r03", some 3, some "2025-01-0300:00:00", some 3, some "p", some ⟨0, 0⟩, some ⟨0, 0⟩, []⟩,
    ⟨"r04", some 4, some "2025-01-0400:00:00", some 4, some "p", some ⟨0, 0⟩, some ⟨0, 0⟩, []⟩,
    ⟨"r05", some 5, some "2025-01-0500:00:00", some 5, some "p", some ⟨0, 0⟩, some ⟨0, 0⟩, []⟩,
    ⟨"r06", some 6, some "2025-01-0600:00:00", some 1, some "p", some ⟨0, 0⟩, some ⟨0, 0⟩, []⟩,
    ⟨"r07", some 7, some "2025-01-0700:00:00", some 2, some "p", some ⟨0, 0⟩, some ⟨0, 0⟩, []⟩,
    ⟨"r08", some 8, some "2025-01-0800:00:00", some 3, some "p", some ⟨0, 0⟩, some ⟨0, 0⟩, []⟩,
    ⟨"r09", some 9, some "2025-01-0900:00:00", some 4, some "p", some ⟨0, 0⟩, some ⟨0, 0⟩, []⟩,
    ⟨"r10", some 10, some "2025-01-1000:00:00", some 5, some "p", some ⟨0, 0⟩, some ⟨0, 0⟩, []⟩,
    ⟨"r11", some 11, some "2025-01-1100:00:00", some 1, some "p", some ⟨0, 0⟩, some ⟨0, 0⟩, []⟩],
   none⟩

/-- Claim C2: with N > 10 all-valid records in the store, the
`/data-download` page renders exactly 10 data rows — the records whose
raw timestamp strings are greatest in the descending lexicographic
(string, not calendar) order — while `/download-csv` emits the fixed
header row followed by one data row per record, N + 1 rows in all. -/
theorem C2_page_limit_vs_full_export (conn : Conn)
    (hN : 10 < conn.docs.length) (hfail : conn.fetchError = none)
    (hvalid : ∀ d ∈ conn.docs, (MongoDBItem.validate d).isSome) :
    (∃ items, fetchPage conn = Except.ok items ∧ items.length = 10 ∧
      data_download_page (some conn) = (200, data_rows_html items) ∧
      List.Forall₂ (fun d it => MongoDBItem.validate d = some it)
        ((sortDescTs conn.docs).take 10) items ∧
      ∀ d1 ∈ (sortDescTs conn.docs).take 10, ∀ d2 ∈ (sortDescTs conn.docs).drop 10,
        strLe (tsKey d2) (tsKey d1) = true) ∧
    download_csv (some conn) =
      CsvResult.file [String.join (csvHeaderLine ::
        (sortDescTs conn.docs).map (fun d => csvLine (csvRow d)))] ∧
    (csvHeaderLine :: (sortDescTs conn.docs).map (fun d => csvLine (csvRow d))).length =
      conn.docs.length + 1 := by
  have hperm : (sortDescTs conn.docs).Perm conn.docs := List.perm_insertionSort tsGe conn.docs
  have hlen : (sortDescTs conn.docs).length = conn.docs.length := hperm.length_eq
  have hvalid10 : ∀ d ∈ (sortDescTs conn.docs).take 10, (MongoDBItem.validate d).isSome :=
    fun d hd => hvalid d (hperm.mem_iff.mp (List.take_subset _ _ hd))
  obtain ⟨items, hc, hf2⟩ := collectItems_ok _ hvalid10
  have hitems : items.length = 10 := by
    have hl := hf2.length_eq
    rw [List.length_take, hlen] at hl
    omega
  have hfp : fetchPage conn = Except.ok items := by
    unfold fetchPage
    rw [hfail]
    simp [hc]
  refine ⟨⟨items, hfp, hitems, ?_, hf2, ?_⟩, ?_, ?_⟩
  · simp only [data_download_page, hfp]
  · have hsorted : List.Pairwise tsGe (sortDescTs conn.docs) :=
      List.sorted_insertionSort tsGe conn.docs
    have hsplit : List.Pairwise tsGe
        ((sortDescTs conn.docs).take 10 ++ (sortDescTs conn.docs).drop 10) := by
      rw [List.take_append_drop]
      exact hsorted
    exact fun d1 h1 d2 h2 => (List.pairwise_append.mp hsplit).2.2 d1 h1 d2 h2
  · simp only [download_csv, hfail]
  · rw [List.length_cons, List.length_map, hlen]

/-- Witness for C2 at the eleven-record store: exactly ten records reach
the page and the export carries all eleven records behind the header. -/
theorem C2_page_limit_vs_full_export_witness :
    (∃ items, fetchPage connEleven = Except.ok items ∧ items.length = 10 ∧
      data_download_page (some connEleven) = (200, data_rows_html items)) ∧
    (csvHeaderLine :: (sortDescTs connEleven.docs).map (fun d => csvLine (csvRow d))).length =
      connEleven.docs.length + 1 := by
  obtain ⟨⟨items, h1, h2, h3, _⟩, _, h4⟩ :=
    C2_page_limit_vs_full_export connEleven (by decide) rfl (by decide)
  exact ⟨⟨items, h1, h2, h3⟩, h4⟩

/-- Claim C5: the two renderers treat malformed documents
asymmetrically.  The CSV export applies raw-field defaults and no
validation, so for every store it produces exactly one data row per
record, whatever fields a record is missing; the HTML path validates
strictly and a single invalid document among the fetched ten aborts the
entire listing with the 500 error page. -/
theorem C5_renderer_asymmetry :
    (∀ conn : Conn, conn.fetchError = none →
      download_csv (some conn) =
        CsvResult.file [String.join (csvHeaderLine ::
          (sortDescTs conn.docs).map (fun d => csvLine (csvRow d)))] ∧
      ((sortDescTs conn.docs).map (fun d => csvLine (csvRow d))).length = conn.docs.length) ∧
    (∀ conn : Conn, conn.fetchError = none →
      (∃ d ∈ (sortDescTs conn.docs).take 10, MongoDBItem.validate d = none) →
      ∃ e, fetchPage conn = Except.error e ∧
        data_download_page (some conn) = (500, errorDivHtml e)) := by
  constructor
  · intro conn hf
    have hlen : (sortDescTs conn.docs).length = conn.docs.length :=
      (List.perm_insertionSort tsGe conn.docs).length_eq
    constructor
    · simp only [download_csv, hf]
    · rw [List.length_map, hlen]
  · intro conn hf hbad
    obtain ⟨e, he⟩ := collectItems_error _ hbad
    have hfp : fetchPage conn = Except.error e := by
      unfold fetchPage
      rw [hf]
      simp [he]
    refine ⟨e, hfp, ?_⟩
    simp only [data_download_page, hfp]

/-- Witness for C5 at a one-record store whose record lacks `user_id`:
the export still emits its row while the page degrades to a 500. -/
theorem C5_renderer_asymmetry_witness :
    (download_csv (some ⟨[docNoUser], none⟩) =
      CsvResult.file [String.join (csvHeaderLine ::
        (sortDescTs [docNoUser]).map (fun d => csvLine (csvRow d)))] ∧
     ((sortDescTs [docNoUser]).map (fun d => csvLine (csvRow d))).length =
       ([docNoUser] : List RawDoc).length) ∧
    ∃ e, fetchPage ⟨[docNoUser], none⟩ = Except.error e ∧
      data_download_page (some ⟨[docNoUser], none⟩) = (500, errorDivHtml e) :=
  ⟨C5_renderer_asymmetry.1 ⟨[docNoUser], none⟩ rfl,
   C5_renderer_asymmetry.2 ⟨[docNoUser], none⟩ rfl ⟨docNoUser, by decide, rfl⟩⟩

/-- Claim C6: with the database handle never initialized both endpoints
answer 503 (the HTML page with its connection-failure body, the CSV
endpoint with its `HTTPException` detail); with a live handle whose
query fails, both answer 500; and both handlers are total functions
into the statuses 200/500/503, so no request propagates an unhandled
fault and the process keeps serving. -/
theorem C6_store_unavailable_and_failures :
    data_download_page none = (503, dbFailHtml) ∧
    download_csv none = CsvResult.httpError 503 "Database connection failed." ∧
    (∀ conn : Conn, conn.fetchError.isSome = true →
      (data_download_page (some conn)).1 = 500 ∧
      download_csv (some conn) = CsvResult.httpError 500 "Error generating CSV file.") ∧
    (∀ db : Option Conn, (data_download_page db).1 = 200 ∨
      (data_download_page db).1 = 500 ∨ (data_download_page db).1 = 503) ∧
    (∀ db : Option Conn, (∃ chunks, download_csv db = CsvResult.file chunks) ∨
      download_csv db = CsvResult.httpError 500 "Error generating CSV file." ∨
      download_csv db = CsvResult.httpError 503 "Database connection failed.") := by
  refine ⟨rfl, rfl, ?_, ?_, ?_⟩
  · intro conn hsome
    cases hke : conn.fetchError with
    | none =>
      rw [hke] at hsome
      cases hsome
    | some k =>
      constructor
      · have hfp : ∃ e, fetchPage conn = Except.error e := by
          cases hc : collectItems (((sortDescTs conn.docs).take 10).take k) with
          | error e =>
            refine ⟨e, ?_⟩
            unfold fetchPage
            rw [hke]
            simp [hc]
          | ok items =>
            refine ⟨"cursor error", ?_⟩
            unfold fetchPage
            rw [hke]
            simp [hc]
        obtain ⟨e, he⟩ := hfp
        simp only [data_download_page, he]
      · simp only [download_csv, hke]
  · intro db
    cases db with
    | none =>
      right; right; rfl
    | some conn =>
      cases hfp : fetchPage conn with
      | error e =>
        right; left
        simp only [data_download_page, hfp]
      | ok items =>
        left
        simp only [data_download_page, hfp]
  · intro db
    cases db with
    | none =>
      right; right; rfl
    | some conn =>
      cases hke : conn.fetchError with
      | none =>
        left
        refine ⟨[String.join (csvHeaderLine ::
          (sortDescTs conn.docs).map (fun d => csvLine (csvRow d)))], ?_⟩
        simp only [download_csv, hke]
      | some k =>
        right; left
        simp only [download_csv, hke]

/-- Witness for C6 at a live store whose cursor raises immediately. -/
theorem C6_store_unavailable_and_failures_witness :
    (data_download_page (some ⟨[doc8], some 0⟩)).1 = 500 ∧
    download_csv (some ⟨[doc8], some 0⟩) = CsvResult.httpError 500 "Error generating CSV file." :=
  C6_store_unavailable_and_failures.2.2.1 ⟨[doc8], some 0⟩ rfl

/-- Claim C7 counterexample: the export does not stream incrementally
and a mid-generation failure does not truncate output.  With one record
and a cursor that raises after yielding it, the handler returns the 500
error response and no CSV bytes; with no failure the whole export
(header and data row together) is returned as one single buffered
chunk. -/
theorem C7_counterexample :
    download_csv (some ⟨[doc8], some 1⟩) =
      CsvResult.httpError 500 "Error generating CSV file." ∧
    download_csv (some ⟨[doc8], none⟩) =
      CsvResult.file [csvHeaderLine ++ csvLine (csvRow doc8)] :=
  ⟨rfl, rfl⟩

/-- Claim C7 as amended: the CSV export accumulates the entire result
set in an in-memory buffer and returns it as a single chunk rather than
streaming incrementally; a failure during generation occurs before
anything is sent, so the client receives a 500 error response — never a
truncated file. -/
theorem C7_export_is_buffered (conn : Conn) :
    (conn.fetchError.isSome = true →
      download_csv (some conn) = CsvResult.httpError 500 "Error generating CSV file.") ∧
    (conn.fetchError = none →
      download_csv (some conn) =
        CsvResult.file [String.join (csvHeaderLine ::
          (sortDescTs conn.docs).map (fun d => csvLine (csvRow d)))]) := by
  constructor
  · intro hsome
    cases hke : conn.fetchError with
    | none =>
      rw [hke] at hsome
      cases hsome
    | some k =>
      simp only [download_csv, hke]
  · intro hnone
    simp only [download_csv, hnone]

/-- Witness for the amended C7 at one-record stores. -/
theorem C7_export_is_buffered_witness :
    download_csv (some ⟨[docNoUser], some 0⟩) =
      CsvResult.httpError 500 "Error generating CSV file." ∧
    download_csv (some ⟨[docNoUser], none⟩) =
      CsvResult.file [String.join (csvHeaderLine ::
        (sortDescTs [docNoUser]).map (fun d => csvLine (csvRow d)))] :=
  ⟨(C7_export_is_buffered ⟨[docNoUser], some 0⟩).1 rfl,
   (C7_export_is_buffered ⟨[docNoUser], none⟩).2 rfl⟩

end EmoGo
